import Mathlib

set_option maxHeartbeats 1000000

/-
Shallow embedding of the batch request-processing pipeline of
src/api.py (a food-image aesthetic-scoring service).

The two operations modelled are the `/score` endpoint (`score_image`,
api.py lines 62-117) and the `/score-batch` endpoint
(`score_batch_images`, api.py lines 119-207).  External collaborators
(the base64 decoder, the PIL imaging library, the temporary-file
allocator, the external scoring model) are modelled as an oracle
structure `World`; theorems quantify over all oracles, so they hold for
every possible behaviour of the collaborators, while concrete worlds
instantiate them for witnesses and counterexamples.  Each operation
returns, besides its response, a trace of filesystem / scorer events, so
that resource-lifecycle claims are statable.
-/

/-- Pixel buffer as produced by `PIL.Image.open`: dimensions plus a
color-mode tag (such as "RGB", "RGBA", "L", "P"). -/
structure PILImage where
  width : Nat
  height : Nat
  mode : String
deriving DecidableEq

/-- Color-mode normalization performed by both endpoints:
`if image.mode != 'RGB': image = image.convert('RGB')`
(api.py lines 88-89 and 160-161).  Conversion preserves dimensions. -/
def toRGB (img : PILImage) : PILImage :=
  if img.mode = "RGB" then img else { img with mode := "RGB" }

/-- Decidable equality for `Except`, so that concrete runs of the
embedded endpoints can be checked by evaluation. -/
instance instDecEqExcept {ε α : Type} [DecidableEq ε] [DecidableEq α] :
    DecidableEq (Except ε α) := fun a b =>
  match a, b with
  | Except.ok x, Except.ok y =>
    if h : x = y then Decidable.isTrue (congrArg Except.ok h)
    else Decidable.isFalse (fun hc => h (Except.ok.inj hc))
  | Except.ok _, Except.error _ =>
    Decidable.isFalse (fun hc => Except.noConfusion hc)
  | Except.error _, Except.ok _ =>
    Decidable.isFalse (fun hc => Except.noConfusion hc)
  | Except.error x, Except.error y =>
    if h : x = y then Decidable.isTrue (congrArg Except.error h)
    else Decidable.isFalse (fun hc => h (Except.error.inj hc))

/-- Oracle for the external collaborators invoked by the endpoints.

* `fa_model_loaded`: whether the global `fa_model` is not `None`
  (api.py lines 30-35).
* `b64decode s`: result of `base64.b64decode(s)` on the submitted
  string; `none` models the call raising (`binascii.Error`).  Bytes are
  modelled as `List Nat`.
* `imageOpen bs`: result of `PIL.Image.open(io.BytesIO(bs))`; `none`
  models an unidentifiable / truncated payload.  It receives only the
  byte content — never the declared format hint — exactly as in the
  source (api.py lines 85 and 157).
* `tempfileOk c`: whether the `c`-th `tempfile.NamedTemporaryFile` call
  of the request succeeds in creating the scratch file.
* `saveOk img fmt`: whether `image.save(temp_file, format=fmt.upper())`
  succeeds.  PIL raises `KeyError` when the uppercased hint is not a
  registered save format (for example `"JPG"` is not registered while
  `"JPEG"` is), and the save can also fail on I/O errors; the `.upper()`
  call itself is part of this step.
* `score img fmt`: the value of `fa_model.aesthetic_score(path)` where
  the file at `path` holds `img` re-encoded as `fmt`; `none` models the
  model raising.  No claim depends on numeric properties of the score,
  so its float value is represented opaquely by an `Int`. -/
structure World where
  fa_model_loaded : Bool
  b64decode : String → Option (List Nat)
  imageOpen : List Nat → Option PILImage
  tempfileOk : Nat → Bool
  saveOk : PILImage → String → Bool
  score : PILImage → String → Option Int

/-- Observable events of one request: creation of the scratch file with
path id `p` holding `img` re-encoded as `fmt` (the `NamedTemporaryFile`
/ `image.save` step), the scorer being invoked on that file, and the
file's removal (`os.unlink`). -/
inductive Ev where
  | create (p : Nat) (img : PILImage) (fmt : String)
  | scoreCall (p : Nat) (img : PILImage) (fmt : String)
  | remove (p : Nat)
deriving DecidableEq

/-- Paths of the scratch files created during a trace. -/
def createdPaths (t : List Ev) : List Nat :=
  t.filterMap fun e => match e with | Ev.create p _ _ => some p | _ => none

/-- Paths of the scratch files removed during a trace. -/
def removedPaths (t : List Ev) : List Nat :=
  t.filterMap fun e => match e with | Ev.remove p => some p | _ => none

/-- Images handed to scratch acquisition (the re-encode step). -/
def acquiredImages (t : List Ev) : List PILImage :=
  t.filterMap fun e => match e with | Ev.create _ img _ => some img | _ => none

/-- Images whose scratch file was handed to the scorer. -/
def scoredImages (t : List Ev) : List PILImage :=
  t.filterMap fun e => match e with | Ev.scoreCall _ img _ => some img | _ => none

/-- Failure stage of one item, mirroring the exception site caught by
the per-item `except Exception` (api.py lines 179-183) and the single
endpoint's handler (lines 109-117); the service renders the caught
exception as a message string, whose exact text no claim depends on. -/
inductive ItemError where
  | b64Error
  | openError
  | scratchError
  | reencodeError
  | scoreError
deriving DecidableEq

/-- Per-item outcome record appended to `results`
(api.py lines 172-177 on success, 180-183 on failure): either
`{image_index, aesthetic_score, image_format, image_size}` or
`{image_index, error}`.  `image_size` is the string `"WxH"`, a function
of the width/height fields kept here as numbers. -/
inductive ItemResult where
  | success (index : Nat) (scoreVal : Int) (fmtStr : String) (width height : Nat)
  | failure (index : Nat) (err : ItemError)
deriving DecidableEq

/-- Original submission index carried by an ItemResult. -/
def ItemResult.index : ItemResult → Nat
  | .success i _ _ _ _ => i
  | .failure i _ => i

/-- Whether the result carries an `error` field. -/
def ItemResult.isError : ItemResult → Bool
  | .success _ _ _ _ _ => false
  | .failure _ _ => true

/-- Reported `aesthetic_score`, when present. -/
def ItemResult.score? : ItemResult → Option Int
  | .success _ s _ _ _ => some s
  | .failure _ _ => none

/-- Reported width, when present. -/
def ItemResult.width? : ItemResult → Option Nat
  | .success _ _ _ w _ => some w
  | .failure _ _ => none

/-- Reported height, when present. -/
def ItemResult.height? : ItemResult → Option Nat
  | .success _ _ _ _ h => some h
  | .failure _ _ => none

/-- Outcome of processing one well-formed batch entry
(api.py lines 152-183): the ItemResult appended to `results`, the
temp-file counter after the item, the events it emitted, and the paths
it appended to the `temp_files` list. -/
structure ItemStep where
  result : ItemResult
  counter : Nat
  events : List Ev
  tracked : List Nat

/-- One iteration of the batch loop body for a well-formed entry with
index `i`, base64 payload `data`, format hint `fmt`, at temp-file
counter `c` (api.py lines 152-183).  Crucially, mirroring the source:
`NamedTemporaryFile(delete=False, ...)` creates the scratch file before
`image.save` runs, and the path is recorded in `temp_files` only after
the save succeeds — a failing save therefore leaves a created file that
is never tracked. -/
def runItem (w : World) (i : Nat) (data fmt : String) (c : Nat) : ItemStep :=
  match w.b64decode data with
  | none => ⟨.failure i .b64Error, c, [], []⟩
  | some bs =>
    match w.imageOpen bs with
    | none => ⟨.failure i .openError, c, [], []⟩
    | some img0 =>
      let img := toRGB img0
      if w.tempfileOk c = false then
        ⟨.failure i .scratchError, c, [], []⟩
      else if w.saveOk img fmt = false then
        ⟨.failure i .reencodeError, c + 1, [Ev.create c img fmt], []⟩
      else
        match w.score img fmt with
        | none =>
          ⟨.failure i .scoreError, c + 1,
            [Ev.create c img fmt, Ev.scoreCall c img fmt], [c]⟩
        | some s =>
          ⟨.success i s fmt img.width img.height, c + 1,
            [Ev.create c img fmt, Ev.scoreCall c img fmt], [c]⟩

/-- A submitted batch entry as the orchestrator sees it
(api.py lines 145-150): `malformed` models an entry that is not a dict
or lacks the `image_data` key (skipped by `continue`); `valid` carries
the `image_data` string and the optional `image_format` value, which
defaults to `"jpeg"` when the key is absent. -/
inductive BatchEntry where
  | malformed
  | valid (image_data : String) (image_format : Option String)
deriving DecidableEq

/-- Whether an entry passes the
`isinstance(img_obj, dict) and 'image_data' in img_obj` check. -/
def isWellFormed : BatchEntry → Bool
  | .malformed => false
  | .valid _ _ => true

/-- Accumulated state of the batch loop: the `results` list, the
`temp_files` list, and the events emitted so far. -/
structure BatchLoop where
  results : List ItemResult
  tempFiles : List Nat
  events : List Ev

/-- The `for i, img_obj in enumerate(images)` loop of
api.py lines 145-183, starting at index `i` and temp-file counter `c`. -/
def runBatch (w : World) : Nat → Nat → List BatchEntry → BatchLoop
  | _, _, [] => ⟨[], [], []⟩
  | i, c, BatchEntry.malformed :: rest => runBatch w (i + 1) c rest
  | i, c, BatchEntry.valid data fmtOpt :: rest =>
    let st := runItem w i data (fmtOpt.getD "jpeg") c
    let tail := runBatch w (i + 1) st.counter rest
    ⟨st.result :: tail.results, st.tracked ++ tail.tempFiles, st.events ++ tail.events⟩

/-- Request-level failures of the batch endpoint: HTTP 503 when the
model is absent (api.py line 133), HTTP 400 "No images provided"
(line 136; the spec's `EmptyBatchError`), HTTP 400 "Maximum 10 images
allowed per batch" (line 139; the spec's `BatchTooLargeError`). -/
inductive BatchError where
  | modelNotLoaded
  | emptyBatch
  | batchTooLarge
deriving DecidableEq

/-- The JSON body assembled at api.py lines 192-197. -/
structure BatchResponse where
  results : List ItemResult
  total_images : Nat
  successful_images : Nat
deriving DecidableEq

/-- The `/score-batch` endpoint, api.py lines 119-207: model check, the
two batch-size precondition checks, the per-item loop, the cleanup loop
unlinking every path recorded in `temp_files`, and the response whose
`successful_images` counts the results without an `error` field. -/
def score_batch_images (w : World) (images : List BatchEntry) :
    Except BatchError BatchResponse × List Ev :=
  if w.fa_model_loaded = false then (.error .modelNotLoaded, [])
  else if images.length = 0 then (.error .emptyBatch, [])
  else if 10 < images.length then (.error .batchTooLarge, [])
  else
    (.ok { results := (runBatch w 0 0 images).results
         , total_images := images.length
         , successful_images :=
             (((runBatch w 0 0 images).results).filter
               (fun r => r.isError = false)).length },
     (runBatch w 0 0 images).events ++
       ((runBatch w 0 0 images).tempFiles).map Ev.remove)

/-- Failures of the single-image endpoint: HTTP 503 when the model is
absent (api.py line 78), HTTP 500 "Error processing image" for any
exception caught at line 109. -/
inductive SingleError where
  | modelNotLoaded
  | processingError
deriving DecidableEq

/-- The JSON body assembled at api.py lines 102-107 (`image_size` is
rendered from the width and height kept here as numbers). -/
structure SingleResponse where
  aesthetic_score : Int
  image_format : String
  width : Nat
  height : Nat
deriving DecidableEq

/-- The `/score` endpoint, api.py lines 62-117: decode, open, RGB
normalization, scratch-file creation and re-encode, scoring, unlink,
response.  On an exception the handler unlinks the scratch file only
when `temp_file_path` was assigned (line 111) — which happens after the
save succeeds — so a failing save leaves the created file unremoved,
while a failing score call still gets the unlink. -/
def score_image (w : World) (image_data image_format : String) :
    Except SingleError SingleResponse × List Ev :=
  if w.fa_model_loaded = false then (.error .modelNotLoaded, [])
  else
    match w.b64decode image_data with
    | none => (.error .processingError, [])
    | some bs =>
      match w.imageOpen bs with
      | none => (.error .processingError, [])
      | some img0 =>
        let img := toRGB img0
        if w.tempfileOk 0 = false then (.error .processingError, [])
        else if w.saveOk img image_format = false then
          (.error .processingError, [Ev.create 0 img image_format])
        else
          match w.score img image_format with
          | none =>
            (.error .processingError,
              [Ev.create 0 img image_format, Ev.scoreCall 0 img image_format,
               Ev.remove 0])
          | some s =>
            (.ok { aesthetic_score := s, image_format := image_format
                 , width := img.width, height := img.height },
              [Ev.create 0 img image_format, Ev.scoreCall 0 img image_format,
               Ev.remove 0])

/-- The decode stage shared by both endpoints
(`base64.b64decode` then `Image.open` then RGB normalization); it never
sees the declared format hint. -/
def decodePhase (w : World) (data : String) : Option PILImage :=
  ((w.b64decode data).bind w.imageOpen).map toRGB

/-- Whether an event carries an RGB-normalized image: scratch-file
creations and scorer calls must carry mode "RGB"; removals carry no
image. -/
def evRGB : Ev → Prop
  | Ev.create _ img _ => img.mode = "RGB"
  | Ev.scoreCall _ img _ => img.mode = "RGB"
  | Ev.remove _ => True

/-- A complete, specification-valid 75-byte PNG file: the 8-byte PNG
signature; an IHDR chunk declaring width 10, height 10, bit depth 8,
color type 2 (8-bit truecolor RGB), no interlace; one IDAT chunk whose
zlib stream decompresses to the ten filter-0 scanlines of ten red
pixels each (10 x (1 + 3*10) = 310 bytes); and an IEND chunk — every
chunk with a correct CRC-32.  `PIL.Image.open` identifies it as a
10x10 image of mode "RGB", and its pixel data loads cleanly. -/
def pngBytes : List Nat :=
  [137, 80, 78, 71, 13, 10, 26, 10, 0, 0, 0, 13, 73, 72, 68, 82, 0, 0,
   0, 10, 0, 0, 0, 10, 8, 2, 0, 0, 0, 2, 80, 88, 234, 0, 0, 0, 18, 73,
   68, 65, 84, 120, 218, 99, 248, 207, 192, 128, 7, 49, 140, 74, 99,
   67, 0, 183, 202, 99, 157, 214, 213, 239, 116, 0, 0, 0, 0, 73, 69,
   78, 68, 174, 66, 96, 130]

/-- The standard base64 encoding of `pngBytes`. -/
def pngB64 : String :=
  "iVBORw0KGgoAAAANSUhEUgAAAAoAAAAKCAIAAAACUFjqAAAAEklEQVR42mP4z8CABzGMSmNDALfKY53W1e90AAAAAElFTkSuQmCC"

/-- A concrete oracle describing one real execution environment, pinned
at the payload `pngB64`: `base64.b64decode` maps it to the complete PNG
file `pngBytes`, which `PIL.Image.open` identifies (content-driven) as
a 10x10 image of mode "RGB"; `image.save` of that RGB image succeeds
for the hint "jpeg" (saving an RGB image as JPEG works) and fails for
the hint "jpg" — `"jpg".upper()` is "JPG", which is not in PIL's save
registry ("JPEG" is), so the save raises `KeyError: 'JPG'` — and the
scorer returns a score. -/
def pilWorld : World :=
  { fa_model_loaded := true
  , b64decode := fun s => if s = pngB64 then some pngBytes else none
  , imageOpen := fun bs => if bs = pngBytes then some ⟨10, 10, "RGB"⟩ else none
  , tempfileOk := fun _ => true
  , saveOk := fun _ fmt => fmt = "jpeg"
  , score := fun _ _ => some 1 }

/-- A complete, specification-valid 74-byte PNG file: signature, an
IHDR declaring width 4, height 3, bit depth 8, color type 6 (8-bit
RGBA), one zlib-compressed IDAT holding the three filter-0 scanlines of
four RGBA pixels (3 x (1 + 4*4) = 51 bytes), and IEND, every chunk
with a correct CRC-32.  `PIL.Image.open` identifies it as a 4x3 image
of mode "RGBA". -/
def rgbaPngBytes : List Nat :=
  [137, 80, 78, 71, 13, 10, 26, 10, 0, 0, 0, 13, 73, 72, 68, 82, 0, 0,
   0, 4, 0, 0, 0, 3, 8, 6, 0, 0, 0, 180, 244, 174, 198, 0, 0, 0, 17,
   73, 68, 65, 84, 120, 218, 99, 96, 248, 207, 208, 128, 130, 9, 10,
   0, 0, 199, 10, 17, 245, 76, 241, 86, 82, 0, 0, 0, 0, 73, 69, 78,
   68, 174, 66, 96, 130]

/-- The standard base64 encoding of `rgbaPngBytes`. -/
def rgbaPngB64 : String :=
  "iVBORw0KGgoAAAANSUhEUgAAAAQAAAADCAYAAAC09K7GAAAAEUlEQVR42mNg+M/QgIIJCgAAxwoR9UzxVlIAAAAASUVORK5CYII="

/-- A concrete oracle, pinned at the payload `rgbaPngB64`, whose PNG
bytes decode to a 4x3 RGBA image, so the endpoints must convert it to
RGB before re-encoding and scoring. -/
def rgbaWorld : World :=
  { fa_model_loaded := true
  , b64decode := fun s => if s = rgbaPngB64 then some rgbaPngBytes else none
  , imageOpen := fun bs => if bs = rgbaPngBytes then some ⟨4, 3, "RGBA"⟩ else none
  , tempfileOk := fun _ => true
  , saveOk := fun _ _ => true
  , score := fun _ _ => some 7 }

/-- A concrete batch for witnesses: a malformed entry (skipped), a
well-formed entry whose re-encode fails under `pilWorld` (hint "jpg"),
and a well-formed entry that succeeds (defaulted hint "jpeg"). -/
def demoBatch : List BatchEntry :=
  [BatchEntry.malformed, BatchEntry.valid pngB64 (some "jpg"),
   BatchEntry.valid pngB64 none]

/-- The batch response `pilWorld` produces for `demoBatch`. -/
def demoResp : BatchResponse :=
  { results := [ItemResult.failure 1 ItemError.reencodeError,
                ItemResult.success 2 1 "jpeg" 10 10]
  , total_images := 3
  , successful_images := 1 }

/-- An eleven-entry batch, exceeding the maximum of 10. -/
def elevenBatch : List BatchEntry := List.replicate 11 BatchEntry.malformed

/-
Support lemmas about the embedded operations.
-/

theorem toRGB_mode (img : PILImage) : (toRGB img).mode = "RGB" := by
  unfold toRGB
  split
  · assumption
  · rfl

theorem runItem_index (w : World) (i : Nat) (data fmt : String) (c : Nat) :
    (runItem w i data fmt c).result.index = i := by
  simp only [runItem]
  repeat' split
  all_goals rfl

theorem runItem_success (w : World) (i : Nat) (data fmt : String) (c : Nat)
    (h : (runItem w i data fmt c).result.isError = false) :
    ∃ img s, decodePhase w data = some img ∧
      (runItem w i data fmt c).result =
        ItemResult.success i s fmt img.width img.height := by
  unfold runItem at h ⊢
  cases hb : w.b64decode data with
  | none => simp [hb, ItemResult.isError] at h
  | some bs =>
    cases ho : w.imageOpen bs with
    | none => simp [hb, ho, ItemResult.isError] at h
    | some img0 =>
      simp only [hb, ho] at h ⊢
      by_cases ht : w.tempfileOk c = false
      · simp [ht, ItemResult.isError] at h
      · by_cases hv : w.saveOk (toRGB img0) fmt = false
        · simp [ht, hv, ItemResult.isError] at h
        · cases hs : w.score (toRGB img0) fmt with
          | none => simp [ht, hv, hs, ItemResult.isError] at h
          | some s =>
            refine ⟨toRGB img0, s, by simp [decodePhase, hb, ho], ?_⟩
            simp [ht, hv, hs]

theorem runBatch_results_length (w : World) (i c : Nat) (es : List BatchEntry) :
    (runBatch w i c es).results.length = es.countP isWellFormed := by
  induction es generalizing i c with
  | nil => simp [runBatch]
  | cons e rest ih =>
    cases e with
    | malformed => simp [runBatch, List.countP_cons, isWellFormed, ih]
    | valid data fmtOpt => simp [runBatch, List.countP_cons, isWellFormed, ih]

theorem runBatch_index_ge (w : World) (i c : Nat) (es : List BatchEntry) :
    ∀ r ∈ (runBatch w i c es).results, i ≤ r.index := by
  induction es generalizing i c with
  | nil => simp [runBatch]
  | cons e rest ih =>
    cases e with
    | malformed =>
      intro r hr
      have := ih (i + 1) c r hr
      omega
    | valid data fmtOpt =>
      intro r hr
      simp only [runBatch, List.mem_cons] at hr
      rcases hr with h | h
      · subst h
        rw [runItem_index]
      · have := ih (i + 1) _ r h
        omega

theorem runBatch_pairwise (w : World) (i c : Nat) (es : List BatchEntry) :
    ((runBatch w i c es).results.map ItemResult.index).Pairwise (· < ·) := by
  induction es generalizing i c with
  | nil => simp [runBatch]
  | cons e rest ih =>
    cases e with
    | malformed => simpa [runBatch] using ih (i + 1) c
    | valid data fmtOpt =>
      simp only [runBatch, List.map_cons, List.pairwise_cons]
      refine ⟨?_, ih (i + 1) _⟩
      intro x hx
      simp only [List.mem_map] at hx
      obtain ⟨r, hr, rfl⟩ := hx
      have h1 := runBatch_index_ge w (i + 1) _ rest r hr
      rw [runItem_index]
      omega

theorem runBatch_mem (w : World) (i c : Nat) (es : List BatchEntry) :
    ∀ r ∈ (runBatch w i c es).results, ∃ j data fmtOpt c2,
      r.index = i + j ∧ es[j]? = some (BatchEntry.valid data fmtOpt) ∧
      r = (runItem w (i + j) data (fmtOpt.getD "jpeg") c2).result := by
  induction es generalizing i c with
  | nil => simp [runBatch]
  | cons e rest ih =>
    cases e with
    | malformed =>
      intro r hr
      obtain ⟨j, data, fo, c2, h1, h2, h3⟩ := ih (i + 1) c r hr
      have hadd : i + 1 + j = i + (j + 1) := by omega
      rw [hadd] at h1 h3
      exact ⟨j + 1, data, fo, c2, h1, by simpa using h2, h3⟩
    | valid data fmtOpt =>
      intro r hr
      simp only [runBatch, List.mem_cons] at hr
      rcases hr with h | h
      · refine ⟨0, data, fmtOpt, c, ?_, by simp, ?_⟩
        · simp [h, runItem_index]
        · simpa using h
      · obtain ⟨j, data2, fo, c2, h1, h2, h3⟩ := ih (i + 1) _ r h
        have hadd : i + 1 + j = i + (j + 1) := by omega
        rw [hadd] at h1 h3
        exact ⟨j + 1, data2, fo, c2, h1, by simpa using h2, h3⟩

theorem runBatch_mem_of_valid (w : World) (i c : Nat) (es : List BatchEntry) :
    ∀ j data fmtOpt, es[j]? = some (BatchEntry.valid data fmtOpt) →
      ∃ r ∈ (runBatch w i c es).results, r.index = i + j := by
  induction es generalizing i c with
  | nil => intro j data fo h; simp at h
  | cons e rest ih =>
    intro j data fo hj
    cases j with
    | zero =>
      simp only [List.getElem?_cons_zero, Option.some.injEq] at hj
      subst hj
      refine ⟨(runItem w i data (fo.getD "jpeg") c).result, ?_, ?_⟩
      · simp [runBatch]
      · simp [runItem_index]
    | succ j2 =>
      simp only [List.getElem?_cons_succ] at hj
      cases e with
      | malformed =>
        obtain ⟨r, hr, hidx⟩ := ih (i + 1) c j2 data fo hj
        exact ⟨r, by simpa [runBatch] using hr, by omega⟩
      | valid data3 fo3 =>
        obtain ⟨r, hr, hidx⟩ :=
          ih (i + 1) (runItem w i data3 (fo3.getD "jpeg") c).counter j2 data fo hj
        refine ⟨r, ?_, by omega⟩
        simp only [runBatch, List.mem_cons]
        exact Or.inr hr

theorem runBatch_all_malformed (w : World) (i c : Nat) (es : List BatchEntry)
    (hall : ∀ e ∈ es, e = BatchEntry.malformed) :
    runBatch w i c es = ⟨[], [], []⟩ := by
  induction es generalizing i c with
  | nil => rfl
  | cons e rest ih =>
    have he : e = BatchEntry.malformed := hall e (by simp)
    subst he
    simp only [runBatch]
    exact ih (i + 1) c (fun x hx => hall x (by simp [hx]))

theorem score_batch_images_ok (w : World) (images : List BatchEntry)
    (hm : w.fa_model_loaded = true) (hne : images ≠ [])
    (hle : images.length ≤ 10) :
    score_batch_images w images =
      (Except.ok { results := (runBatch w 0 0 images).results
                 , total_images := images.length
                 , successful_images :=
                     (((runBatch w 0 0 images).results).filter
                       (fun r => r.isError = false)).length },
       (runBatch w 0 0 images).events ++
         ((runBatch w 0 0 images).tempFiles).map Ev.remove) := by
  have h1 : ¬ (images.length = 0) := by
    intro h
    exact hne (List.length_eq_zero.mp h)
  have h2 : ¬ (10 < images.length) := Nat.not_lt.mpr hle
  simp [score_batch_images, hm, h1, h2]

theorem batch_ok_inv (w : World) (images : List BatchEntry)
    (resp : BatchResponse)
    (hr : (score_batch_images w images).1 = Except.ok resp) :
    w.fa_model_loaded = true ∧ images ≠ [] ∧ images.length ≤ 10 ∧
    resp.results = (runBatch w 0 0 images).results ∧
    resp.total_images = images.length ∧
    resp.successful_images =
      (((runBatch w 0 0 images).results).filter
        (fun r => r.isError = false)).length := by
  by_cases h0 : w.fa_model_loaded = false
  · simp [score_batch_images, h0] at hr
  have hm : w.fa_model_loaded = true := by
    revert h0
    cases w.fa_model_loaded <;> simp
  by_cases h1 : images.length = 0
  · simp [score_batch_images, hm, h1] at hr
  by_cases h2 : 10 < images.length
  · simp [score_batch_images, hm, h1, h2] at hr
  have hne : images ≠ [] := by
    intro h
    exact h1 (by simp [h])
  have hle : images.length ≤ 10 := Nat.not_lt.mp h2
  rw [score_batch_images_ok w images hm hne hle] at hr
  simp only [Except.ok.injEq] at hr
  subst hr
  exact ⟨hm, hne, hle, rfl, rfl, rfl⟩

theorem ItemResult.score?_isSome (r : ItemResult) :
    r.score?.isSome = !r.isError := by
  cases r <;> rfl

theorem runItem_events_rgb (w : World) (i : Nat) (data fmt : String) (c : Nat) :
    ∀ e ∈ (runItem w i data fmt c).events, evRGB e := by
  simp only [runItem]
  repeat' split
  all_goals simp [evRGB, toRGB_mode]

theorem runBatch_events_rgb (w : World) (i c : Nat) (es : List BatchEntry) :
    ∀ e ∈ (runBatch w i c es).events, evRGB e := by
  induction es generalizing i c with
  | nil => simp [runBatch]
  | cons ent rest ih =>
    cases ent with
    | malformed => simpa [runBatch] using ih (i + 1) c
    | valid data fo =>
      intro e he
      simp only [runBatch, List.mem_append] at he
      rcases he with h | h
      · exact runItem_events_rgb w i data (fo.getD "jpeg") c e h
      · exact ih (i + 1) _ e h

theorem score_batch_events_rgb (w : World) (images : List BatchEntry) :
    ∀ e ∈ (score_batch_images w images).2, evRGB e := by
  by_cases h0 : w.fa_model_loaded = false
  · simp [score_batch_images, h0]
  by_cases h1 : images.length = 0
  · simp [score_batch_images, h0, h1]
  by_cases h2 : 10 < images.length
  · simp [score_batch_images, h0, h1, h2]
  intro e he
  have htr : (score_batch_images w images).2 =
      (runBatch w 0 0 images).events ++
        ((runBatch w 0 0 images).tempFiles).map Ev.remove := by
    simp [score_batch_images, h0, h1, h2]
  rw [htr] at he
  rcases List.mem_append.mp he with h | h
  · exact runBatch_events_rgb w 0 0 images e h
  · simp only [List.mem_map] at h
    obtain ⟨p, -, rfl⟩ := h
    simp [evRGB]

theorem score_image_events_rgb (w : World) (data fmt : String) :
    ∀ e ∈ (score_image w data fmt).2, evRGB e := by
  simp only [score_image]
  repeat' split
  all_goals simp [evRGB, toRGB_mode]

theorem acquiredImages_rgb (t : List Ev) (h : ∀ e ∈ t, evRGB e) :
    ∀ img ∈ acquiredImages t, img.mode = "RGB" := by
  intro img hm
  simp only [acquiredImages, List.mem_filterMap] at hm
  obtain ⟨e, he, hme⟩ := hm
  have hev := h e he
  cases e with
  | create p im f =>
    simp only [Option.some.injEq] at hme
    subst hme
    simpa [evRGB] using hev
  | scoreCall p im f => simp at hme
  | remove p => simp at hme

theorem scoredImages_rgb (t : List Ev) (h : ∀ e ∈ t, evRGB e) :
    ∀ img ∈ scoredImages t, img.mode = "RGB" := by
  intro img hm
  simp only [scoredImages, List.mem_filterMap] at hm
  obtain ⟨e, he, hme⟩ := hm
  have hev := h e he
  cases e with
  | create p im f => simp at hme
  | scoreCall p im f =>
    simp only [Option.some.injEq] at hme
    subst hme
    simpa [evRGB] using hev
  | remove p => simp at hme

theorem score_image_ok_inv (w : World) (data fmt : String) (r : SingleResponse)
    (hr : (score_image w data fmt).1 = Except.ok r) :
    r.image_format = fmt ∧ ∃ img, decodePhase w data = some img ∧
      r.width = img.width ∧ r.height = img.height := by
  by_cases h0 : w.fa_model_loaded = false
  · simp [score_image, h0] at hr
  cases hb : w.b64decode data with
  | none => simp [score_image, h0, hb] at hr
  | some bs =>
    cases ho : w.imageOpen bs with
    | none => simp [score_image, h0, hb, ho] at hr
    | some img0 =>
      by_cases ht : w.tempfileOk 0 = false
      · simp [score_image, h0, hb, ho, ht] at hr
      · by_cases hv : w.saveOk (toRGB img0) fmt = false
        · simp [score_image, h0, hb, ho, ht, hv] at hr
        · cases hs : w.score (toRGB img0) fmt with
          | none => simp [score_image, h0, hb, ho, ht, hv, hs] at hr
          | some s =>
            have heq : (score_image w data fmt).1 =
                Except.ok { aesthetic_score := s, image_format := fmt
                          , width := (toRGB img0).width
                          , height := (toRGB img0).height } := by
              simp [score_image, h0, hb, ho, ht, hv, hs]
            rw [heq] at hr
            have hr2 := Except.ok.inj hr
            subst hr2
            exact ⟨rfl, toRGB img0, by simp [decodePhase, hb, ho], rfl, rfl⟩

theorem score_image_acquired (w : World) (data fmt : String) (bs : List Nat)
    (img0 : PILImage) (h0 : w.fa_model_loaded = true)
    (hb : w.b64decode data = some bs) (ho : w.imageOpen bs = some img0)
    (ht : w.tempfileOk 0 = true) :
    acquiredImages (score_image w data fmt).2 = [toRGB img0] := by
  by_cases hv : w.saveOk (toRGB img0) fmt = false
  · simp [score_image, h0, hb, ho, ht, hv, acquiredImages]
  · cases hs : w.score (toRGB img0) fmt <;>
      simp [score_image, h0, hb, ho, ht, hv, hs, acquiredImages]

theorem score_image_acquired_hint_free (w : World) (data f1 f2 : String) :
    acquiredImages (score_image w data f1).2 =
      acquiredImages (score_image w data f2).2 := by
  by_cases h0 : w.fa_model_loaded = false
  · simp [score_image, h0]
  have hm : w.fa_model_loaded = true := by
    revert h0
    cases w.fa_model_loaded <;> simp
  cases hb : w.b64decode data with
  | none => simp [score_image, h0, hb]
  | some bs =>
    cases ho : w.imageOpen bs with
    | none => simp [score_image, h0, hb, ho]
    | some img0 =>
      by_cases ht : w.tempfileOk 0 = false
      · simp [score_image, h0, hb, ho, ht]
      · have ht2 : w.tempfileOk 0 = true := by
          revert ht
          cases w.tempfileOk 0 <;> simp
        rw [score_image_acquired w data f1 bs img0 hm hb ho ht2,
            score_image_acquired w data f2 bs img0 hm hb ho ht2]

theorem batch_success_size (w : World) (b : List BatchEntry)
    (resp : BatchResponse)
    (hr : (score_batch_images w b).1 = Except.ok resp)
    (i : Nat) (data : String) (fo : Option String)
    (he : b[i]? = some (BatchEntry.valid data fo))
    (r : ItemResult) (hm : r ∈ resp.results) (hidx : r.index = i)
    (hs : r.isError = false) :
    ∃ img, decodePhase w data = some img ∧
      r.width? = some img.width ∧ r.height? = some img.height := by
  obtain ⟨-, -, -, hres, -, -⟩ := batch_ok_inv w b resp hr
  rw [hres] at hm
  obtain ⟨j2, data2, fo2, c2, hidx2, hj2, hr2⟩ := runBatch_mem w 0 0 b r hm
  rw [hidx, Nat.zero_add] at hidx2
  subst hidx2
  rw [he] at hj2
  simp only [Option.some.injEq, BatchEntry.valid.injEq] at hj2
  obtain ⟨hd, hf⟩ := hj2
  subst hd
  subst hf
  have hs2 : (runItem w (0 + i) data (fo.getD "jpeg") c2).result.isError = false := by
    rw [← hr2]
    exact hs
  obtain ⟨img, s, hdec, heq⟩ := runItem_success w (0 + i) data (fo.getD "jpeg") c2 hs2
  refine ⟨img, hdec, ?_, ?_⟩ <;> rw [hr2, heq] <;> rfl

/-
Claim theorems.
-/

/-- C1: the claim states that every scratch artifact (temporary file)
acquired during processing is released exactly once before the
operation returns, on every exit path, in both operations, and that
none is ever leaked.  The code violates this: `tempfile.
NamedTemporaryFile(delete=False, ...)` creates the scratch file on disk
before `image.save` runs, and when the save raises — for example with
the format hint "jpg", whose uppercasing "JPG" is not in PIL's save
registry, producing `KeyError: 'JPG'` — `temp_file_path` is never
assigned, so the single endpoint's handler skips the unlink
(api.py lines 92-94 and 111-115), and in the batch endpoint the path is
never appended to `temp_files`, so the cleanup loops never unlink it
(lines 164-167 and 186-190).  This theorem evaluates both embedded
operations at that failing input — the payload `pngB64`, a complete
valid 10x10 RGB PNG that decodes successfully, with the hint "jpg"
whose save then fails: one scratch file is created and no removal ever
occurs, while in the very same world the file is removed when the hint
is "jpeg" and the save succeeds. -/
theorem C1_scratch_file_leaked_when_reencode_fails :
    (createdPaths (score_image pilWorld pngB64 "jpg").2 = [0] ∧
     removedPaths (score_image pilWorld pngB64 "jpg").2 = [] ∧
     (score_image pilWorld pngB64 "jpg").1 =
       Except.error SingleError.processingError) ∧
    (createdPaths
       (score_batch_images pilWorld [BatchEntry.valid pngB64 (some "jpg")]).2
         = [0] ∧
     removedPaths
       (score_batch_images pilWorld [BatchEntry.valid pngB64 (some "jpg")]).2
         = []) ∧
    removedPaths (score_image pilWorld pngB64 "jpeg").2 = [0] := by
  decide

/-- C2: in the batch operation, for every oracle behaviour — including
failing base64 decodes, unreadable images, failing scratch acquisition,
failing re-encodes and failing scorer calls — a valid-size batch still
returns a successful BatchResponse: failures are absorbed into the
per-item ItemResult, the batch is never aborted mid-way, and the
response reports exactly one ItemResult per processed (well-formed)
item. -/
theorem C2_item_failures_never_abort_batch (w : World)
    (images : List BatchEntry) (hm : w.fa_model_loaded = true)
    (hne : images ≠ []) (hle : images.length ≤ 10) :
    ∃ resp : BatchResponse, (score_batch_images w images).1 = Except.ok resp ∧
      resp.results.length = images.countP isWellFormed := by
  rw [score_batch_images_ok w images hm hne hle]
  exact ⟨_, rfl, runBatch_results_length w 0 0 images⟩

/-- Witness for C2 at a concrete input: under `pilWorld`, `demoBatch`
(one skipped entry, one failing item, one succeeding item) still
returns a successful response with one result per well-formed entry. -/
theorem C2_witness :
    ∃ resp : BatchResponse,
      (score_batch_images pilWorld demoBatch).1 = Except.ok resp ∧
      resp.results.length = demoBatch.countP isWellFormed :=
  C2_item_failures_never_abort_batch pilWorld demoBatch rfl (by decide)
    (by decide)

/-- C3: the batch operation rejects an empty batch with the
request-level empty-batch error and a batch of more than the maximum of
10 items with the request-level too-large error; both checks happen up
front, before any item is processed — the returned event trace is
empty, so no scratch file is created and no scorer call is made for a
rejected batch. -/
theorem C3_preconditions_checked_up_front (w : World)
    (images : List BatchEntry) (hm : w.fa_model_loaded = true) :
    (images = [] →
      score_batch_images w images = (Except.error BatchError.emptyBatch, [])) ∧
    (10 < images.length →
      score_batch_images w images =
        (Except.error BatchError.batchTooLarge, [])) := by
  constructor
  · intro h
    subst h
    simp [score_batch_images, hm]
  · intro h
    have h0 : ¬ (images.length = 0) := by omega
    simp [score_batch_images, hm, h0, h]

/-- Witness for C3 at concrete inputs: zero entries and eleven entries. -/
theorem C3_witness :
    score_batch_images pilWorld [] = (Except.error BatchError.emptyBatch, []) ∧
    score_batch_images pilWorld elevenBatch =
      (Except.error BatchError.batchTooLarge, []) :=
  ⟨(C3_preconditions_checked_up_front pilWorld [] rfl).1 rfl,
   (C3_preconditions_checked_up_front pilWorld elevenBatch rfl).2 (by decide)⟩

/-- C4: in every successful batch response the results are ordered by
original submission position — the mapped indices are strictly
increasing, hence also pairwise distinct — and every emitted ItemResult
carries the 0-based index of one of the well-formed submitted entries,
regardless of how many earlier items failed or were skipped. -/
theorem C4_results_ordered_and_indexed (w : World)
    (images : List BatchEntry) (resp : BatchResponse)
    (hr : (score_batch_images w images).1 = Except.ok resp) :
    ((resp.results.map ItemResult.index).Pairwise (· < ·)) ∧
    ∀ r ∈ resp.results, ∃ data fmtOpt,
      images[r.index]? = some (BatchEntry.valid data fmtOpt) := by
  obtain ⟨-, -, -, hres, -, -⟩ := batch_ok_inv w images resp hr
  constructor
  · rw [hres]
    exact runBatch_pairwise w 0 0 images
  · intro r hm2
    rw [hres] at hm2
    obtain ⟨j, data, fo, c2, hidx, hj, -⟩ := runBatch_mem w 0 0 images r hm2
    refine ⟨data, fo, ?_⟩
    rw [hidx, Nat.zero_add]
    exact hj

/-- Witness for C4 at a concrete input: `demoBatch` under `pilWorld`,
whose response carries indices 1 and 2 (position 0 was skipped). -/
theorem C4_witness :
    ((demoResp.results.map ItemResult.index).Pairwise (· < ·)) ∧
    ∀ r ∈ demoResp.results, ∃ data fmtOpt,
      demoBatch[r.index]? = some (BatchEntry.valid data fmtOpt) :=
  C4_results_ordered_and_indexed pilWorld demoBatch demoResp (by decide)

/-- C5: in every successful batch response, an ItemResult with index j
exists exactly when the j-th submitted entry is well-formed; in
particular a malformed entry (not a dict, or missing the `image_data`
key) is skipped entirely and produces no ItemResult at all — neither a
success nor an error record. -/
theorem C5_malformed_entries_skipped (w : World)
    (images : List BatchEntry) (resp : BatchResponse)
    (hr : (score_batch_images w images).1 = Except.ok resp) :
    ∀ j : Nat, (∃ r ∈ resp.results, r.index = j) ↔
      ∃ data fmtOpt, images[j]? = some (BatchEntry.valid data fmtOpt) := by
  obtain ⟨-, -, -, hres, -, -⟩ := batch_ok_inv w images resp hr
  intro j
  constructor
  · rintro ⟨r, hm2, hidx⟩
    rw [hres] at hm2
    obtain ⟨j2, data, fo, c2, hidx2, hj, -⟩ := runBatch_mem w 0 0 images r hm2
    rw [hidx, Nat.zero_add] at hidx2
    subst hidx2
    exact ⟨data, fo, hj⟩
  · rintro ⟨data, fo, hj⟩
    obtain ⟨r, hm2, hidx⟩ := runBatch_mem_of_valid w 0 0 images j data fo hj
    rw [Nat.zero_add] at hidx
    exact ⟨r, by rw [hres]; exact hm2, hidx⟩

/-- Witness for C5 at a concrete input: position 1 of `demoBatch` is
well-formed and is represented in the response. -/
theorem C5_witness :
    (∃ r ∈ demoResp.results, r.index = 1) ↔
      ∃ data fmtOpt, demoBatch[1]? = some (BatchEntry.valid data fmtOpt) :=
  C5_malformed_entries_skipped pilWorld demoBatch demoResp (by decide) 1

/-- C6: in every successful batch response `successful_images` counts
the ItemResults without an error field, `total_images` counts all
submitted entries including malformed skipped ones, there is exactly
one ItemResult per processed (well-formed) item, and every ItemResult
carries a score exactly when it carries no error — success and error
are mutually exclusive and exhaustive. -/
theorem C6_response_counts (w : World) (images : List BatchEntry)
    (resp : BatchResponse)
    (hr : (score_batch_images w images).1 = Except.ok resp) :
    resp.successful_images =
      (resp.results.filter (fun r => r.isError = false)).length ∧
    resp.total_images = images.length ∧
    resp.results.length = images.countP isWellFormed ∧
    ∀ r ∈ resp.results, r.score?.isSome = !r.isError := by
  obtain ⟨-, -, -, hres, htot, hsucc⟩ := batch_ok_inv w images resp hr
  refine ⟨?_, htot, ?_, ?_⟩
  · rw [hsucc, hres]
  · rw [hres]
    exact runBatch_results_length w 0 0 images
  · intro r _
    exact ItemResult.score?_isSome r

/-- Witness for C6 at a concrete input: `demoBatch` under `pilWorld`
(3 submitted, 2 processed, 1 successful). -/
theorem C6_witness :
    demoResp.successful_images =
      (demoResp.results.filter (fun r => r.isError = false)).length ∧
    demoResp.total_images = demoBatch.length ∧
    demoResp.results.length = demoBatch.countP isWellFormed ∧
    ∀ r ∈ demoResp.results, r.score?.isSome = !r.isError :=
  C6_response_counts pilWorld demoBatch demoResp (by decide)

/-- C7: in both operations, every decoded image handed to scratch
acquisition (the re-encode into the temp file) and every image whose
scratch file is handed to the scorer has been normalized to the single
fixed 3-channel "RGB" mode, whatever the source color mode was —
indexed, greyscale or alpha inputs are converted before leaving the
decode stage. -/
theorem C7_images_normalized_to_rgb (w : World) (data fmt : String)
    (images : List BatchEntry) :
    (∀ img ∈ acquiredImages (score_image w data fmt).2, img.mode = "RGB") ∧
    (∀ img ∈ scoredImages (score_image w data fmt).2, img.mode = "RGB") ∧
    (∀ img ∈ acquiredImages (score_batch_images w images).2,
      img.mode = "RGB") ∧
    (∀ img ∈ scoredImages (score_batch_images w images).2,
      img.mode = "RGB") :=
  ⟨acquiredImages_rgb _ (score_image_events_rgb w data fmt),
   scoredImages_rgb _ (score_image_events_rgb w data fmt),
   acquiredImages_rgb _ (score_batch_events_rgb w images),
   scoredImages_rgb _ (score_batch_events_rgb w images)⟩

/-- Witness for C7 at a concrete input: under `rgbaWorld` the payload
decodes to a 4x3 RGBA image, and the image actually handed to scratch
acquisition is its RGB conversion. -/
theorem C7_witness : PILImage.mode ⟨4, 3, "RGB"⟩ = "RGB" :=
  (C7_images_normalized_to_rgb rgbaWorld rgbaPngB64 "png" []).1 ⟨4, 3, "RGB"⟩
    (by decide)

/-- C8 counterexample: the claim asserts that the declared format hint
never influences whether an item succeeds.  In one and the same world,
the same genuinely decodable payload — `pngB64`, a complete valid
10x10 RGB PNG — succeeds with hint "jpeg" but fails with hint "jpg":
the hint is the re-encoding target, and PIL's save registry accepts
"JPEG" while raising `KeyError: 'JPG'`, so the hint does decide item
success. -/
theorem C8_hint_decides_success :
    (score_image pilWorld pngB64 "jpeg").1 =
      Except.ok { aesthetic_score := 1, image_format := "jpeg"
                , width := 10, height := 10 } ∧
    (score_image pilWorld pngB64 "jpg").1 =
      Except.error SingleError.processingError := by
  decide

/-- C8 amended: decoding is driven by the byte content only — the
decode stage never sees the hint, so the image handed to scratch
acquisition is identical under any two hints — and on success the
reported format is exactly the hint while the reported dimensions come
from the hint-independent decoded image.  The hint can, however, still
decide item success at the later re-encode step (see the
counterexample), which is the one part of the original claim that does
not hold. -/
theorem C8_decode_independent_of_hint (w : World) (data f1 f2 : String) :
    acquiredImages (score_image w data f1).2 =
      acquiredImages (score_image w data f2).2 ∧
    ∀ r, (score_image w data f1).1 = Except.ok r →
      r.image_format = f1 ∧ ∃ img, decodePhase w data = some img ∧
        r.width = img.width ∧ r.height = img.height :=
  ⟨score_image_acquired_hint_free w data f1 f2,
   fun r hr => score_image_ok_inv w data f1 r hr⟩

/-- Witness for the amended C8 at a concrete input: hints "jpeg" and
"jpg" acquire the same decoded image, and the successful "jpeg"
response reports the hint and the decoded dimensions. -/
theorem C8_amended_witness :
    (acquiredImages (score_image pilWorld pngB64 "jpeg").2 =
      acquiredImages (score_image pilWorld pngB64 "jpg").2) ∧
    (SingleResponse.image_format ⟨1, "jpeg", 10, 10⟩ = "jpeg" ∧
     ∃ img, decodePhase pilWorld pngB64 = some img ∧
       SingleResponse.width ⟨1, "jpeg", 10, 10⟩ = img.width ∧
       SingleResponse.height ⟨1, "jpeg", 10, 10⟩ = img.height) :=
  ⟨(C8_decode_independent_of_hint pilWorld pngB64 "jpeg" "jpg").1,
   (C8_decode_independent_of_hint pilWorld pngB64 "jpeg" "jpg").2
     ⟨1, "jpeg", 10, 10⟩ (by decide)⟩

/-- C9: the reported width and height are a deterministic function of
the submitted payload: whenever the same payload (same base64 data and
the same optional format hint) appears in two successful batch calls —
at any positions, among any other entries — and both of its ItemResults
are successes, the two results report identical width and height.  The
score itself is deliberately not constrained. -/
theorem C9_reported_size_deterministic (w : World)
    (b1 b2 : List BatchEntry) (resp1 resp2 : BatchResponse)
    (h1 : (score_batch_images w b1).1 = Except.ok resp1)
    (h2 : (score_batch_images w b2).1 = Except.ok resp2)
    (i j : Nat) (data : String) (fo : Option String)
    (e1 : b1[i]? = some (BatchEntry.valid data fo))
    (e2 : b2[j]? = some (BatchEntry.valid data fo))
    (r1 r2 : ItemResult)
    (m1 : r1 ∈ resp1.results) (m2 : r2 ∈ resp2.results)
    (hi1 : r1.index = i) (hi2 : r2.index = j)
    (s1 : r1.isError = false) (s2 : r2.isError = false) :
    r1.width? = r2.width? ∧ r1.height? = r2.height? := by
  obtain ⟨img1, hd1, hw1, hh1⟩ :=
    batch_success_size w b1 resp1 h1 i data fo e1 r1 m1 hi1 s1
  obtain ⟨img2, hd2, hw2, hh2⟩ :=
    batch_success_size w b2 resp2 h2 j data fo e2 r2 m2 hi2 s2
  rw [hd1] at hd2
  have himg : img1 = img2 := Option.some.inj hd2
  subst himg
  exact ⟨by rw [hw1, hw2], by rw [hh1, hh2]⟩

/-- Witness for C9 at concrete inputs: the same payload submitted alone
and as the third entry of `demoBatch` reports the same 10x10 size. -/
theorem C9_witness :
    ItemResult.width? (ItemResult.success 0 1 "jpeg" 10 10) =
      ItemResult.width? (ItemResult.success 2 1 "jpeg" 10 10) ∧
    ItemResult.height? (ItemResult.success 0 1 "jpeg" 10 10) =
      ItemResult.height? (ItemResult.success 2 1 "jpeg" 10 10) :=
  C9_reported_size_deterministic pilWorld
    [BatchEntry.valid pngB64 none] demoBatch
    { results := [ItemResult.success 0 1 "jpeg" 10 10]
    , total_images := 1, successful_images := 1 }
    demoResp (by decide) (by decide) 0 2 pngB64 none (by decide)
    (by decide) (ItemResult.success 0 1 "jpeg" 10 10)
    (ItemResult.success 2 1 "jpeg" 10 10) (by decide) (by decide)
    (by decide) (by decide) (by decide) (by decide)

/-- C10: a non-empty batch of at most the maximum size in which every
entry is malformed is not rejected: the operation returns a successful
BatchResponse with an empty results list, successful count 0 and total
count equal to the number of submitted entries — and an empty event
trace, since nothing is decoded, re-encoded or scored. -/
theorem C10_all_malformed_batch_accepted (w : World)
    (images : List BatchEntry) (hm : w.fa_model_loaded = true)
    (hne : images ≠ []) (hle : images.length ≤ 10)
    (hall : ∀ e ∈ images, e = BatchEntry.malformed) :
    score_batch_images w images =
      (Except.ok { results := [], total_images := images.length
                 , successful_images := 0 }, []) := by
  rw [score_batch_images_ok w images hm hne hle,
      runBatch_all_malformed w 0 0 images hall]
  simp

/-- Witness for C10 at a concrete input: two malformed entries. -/
theorem C10_witness :
    score_batch_images pilWorld [BatchEntry.malformed, BatchEntry.malformed] =
      (Except.ok { results := [], total_images := 2
                 , successful_images := 0 }, []) :=
  C10_all_malformed_batch_accepted pilWorld
    [BatchEntry.malformed, BatchEntry.malformed] rfl (by decide) (by decide)
    (by decide)
